import Mathlib

/-! Verification of `firebase_setup.py` (FirebaseManager): credential resolution,
session lifecycle, state-write enrichment and merge semantics, and the
document-snapshot streaming model.
-/

namespace FirebaseSetup

/-- A scalar Python value appearing in a market-state payload.
`serverTimestamp` models the `firestore.SERVER_TIMESTAMP` sentinel. -/
inductive PyVal where
  | strV (s : String)
  | intV (n : Int)
  | boolV (b : Bool)
  | noneV
  | serverTimestamp
  deriving DecidableEq, Repr

/-- A Python dict payload: insertion-ordered key/value pairs (keys unique in
any dict produced by Python). -/
abbrev Payload := List (String × PyVal)

/-- A Python object passed as `state_data`: either a dict or some non-dict value
(the code checks `isinstance(state_data, dict)`). -/
inductive PyData where
  | val (v : PyVal)
  | dict (d : Payload)
  deriving DecidableEq, Repr

/-- Model of `isinstance(state_data, dict)`. -/
def PyData.isDict : PyData → Bool
  | .val _ => false
  | .dict _ => true

/-- Lookup in a Python dict (first occurrence of the key). -/
def dictLookup (d : Payload) (k : String) : Option PyVal :=
  match d with
  | [] => none
  | (k1, v) :: rest => if k1 = k then some v else dictLookup rest k

/-- Python dict update `{**d, k: v}` restricted to one key: replace the value
at `k` in place if `k` is present, otherwise append the new binding. -/
def dictSet (d : Payload) (k : String) (v : PyVal) : Payload :=
  match d with
  | [] => [(k, v)]
  | (k1, v1) :: rest =>
    if k1 = k then (k, v) :: rest else (k1, v1) :: dictSet rest k v

theorem dictLookup_dictSet_self (d : Payload) (k : String) (v : PyVal) :
    dictLookup (dictSet d k v) k = some v := by
  induction d with
  | nil => simp [dictSet, dictLookup]
  | cons p rest ih =>
    obtain ⟨k1, v1⟩ := p
    by_cases h1 : k1 = k
    · simp [dictSet, h1, dictLookup]
    · simp [dictSet, h1, dictLookup, ih]

theorem dictLookup_dictSet_ne (d : Payload) (k k1 : String) (v : PyVal)
    (h : k1 ≠ k) : dictLookup (dictSet d k v) k1 = dictLookup d k1 := by
  induction d with
  | nil => simp [dictSet, dictLookup, Ne.symm h]
  | cons p rest ih =>
    obtain ⟨k2, v2⟩ := p
    by_cases h2 : k2 = k
    · subst h2
      simp [dictSet, dictLookup, Ne.symm h]
    · by_cases h3 : k2 = k1
      · subst h3
        simp [dictSet, h2, dictLookup]
      · simp [dictSet, h2, dictLookup, h3, ih]

/-- Python truthiness of `os.environ.get(...)` / of an optional string
argument: `None` and the empty string are falsy. -/
def truthy : Option String → Bool
  | none => false
  | some s => s != ""

/-- The environment variables read by `firebase_setup.py`. `none` = unset. -/
structure Env where
  googleApplicationCredentials : Option String
  firebaseServiceAccount : Option String
  firebaseProjectId : Option String
  firebaseDatabaseUrl : Option String
  deriving DecidableEq, Repr

/-- Behaviour of the external collaborators (file system, credential parsing,
Firebase SDK): which calls succeed. The manager only observes success or
raised exception from each. -/
structure World where
  fileExists : String → Bool
  certFileOk : String → Bool
  parseJsonOk : String → Bool
  certInfoOk : String → Bool
  appInitOk : Bool
  firestoreOk : Bool
  dbRefOk : Bool
  writeOk : Bool
  listenOk : Bool

/-- The credential object produced by resolution. -/
inductive Cred where
  | certificateFile (path : String)
  | applicationDefault
  | certificateInfo (content : String)
  deriving DecidableEq, Repr

/-- Which branch of the strategy chain (source lines 54-73) is taken. -/
inductive Strategy where
  | explicitFile
  | ambientEnv
  | inlineJson
  | ambientDefault
  deriving DecidableEq, Repr

/-- Python exceptions raised by the manager or its collaborators.
`initFailed e` models the `RuntimeError` raised at line 91, wrapping the
root cause `e` (whose message is interpolated into the RuntimeError text). -/
inductive PyErr where
  | certFileError (path : String)
  | jsonDecodeError (content : String)
  | certInfoError (content : String)
  | appInitError
  | firestoreError
  | dbRefError
  | writeError
  | listenError
  | valueError (msg : String)
  | runtimeError (msg : String)
  | initFailed (cause : PyErr)
  deriving DecidableEq, Repr

inductive LogLevel where
  | info
  | warning
  | error
  deriving DecidableEq, Repr

structure LogEntry where
  level : LogLevel
  msg : String
  deriving DecidableEq, Repr

/-- The `firebase_admin.App` as constructed at lines 75-78: the resolved
credential plus the options dict. -/
structure AppHandle where
  cred : Cred
  projectId : String
  databaseURL : String
  deriving DecidableEq, Repr

/-- The mutable fields of the `FirebaseManager` singleton (set in `__init__`).
The Firestore client and realtime reference are opaque handles. -/
structure ManagerState where
  app : Option AppHandle
  firestore_client : Option Unit
  realtime_db : Option Unit
  deriving DecidableEq, Repr

/-- State after `__init__` on a fresh process: all fields `None`. -/
def emptyState : ManagerState := ⟨none, none, none⟩

/-- The spec's session invariant: all session fields (app handle,
document-store client) populated, or the session does not exist. -/
def sessionIntact (st : ManagerState) : Bool :=
  (st.app.isSome && st.firestore_client.isSome) ||
  (st.app.isNone && st.firestore_client.isNone)

/-- The `if`/`elif` chain of lines 55-71: which strategy branch fires.
Conditions are exactly the Python ones: `credential_path and
os.path.exists(credential_path)`, then truthiness of
`GOOGLE_APPLICATION_CREDENTIALS`, then of `FIREBASE_SERVICE_ACCOUNT`. -/
def selectStrategy (w : World) (env : Env) (credential_path : Option String) :
    Strategy :=
  if truthy credential_path && w.fileExists (credential_path.getD "") then
    .explicitFile
  else if truthy env.googleApplicationCredentials then .ambientEnv
  else if truthy env.firebaseServiceAccount then .inlineJson
  else .ambientDefault

/-- Credential acquisition for the selected branch (lines 55-73): the
constructed credential together with the strategy diagnostic the branch logs,
or the exception raised inside the branch (`credentials.Certificate` on a bad
file, `json.loads` on malformed inline JSON, `credentials.Certificate` on bad
parsed service-account info). -/
def resolveCred (w : World) (env : Env) (credential_path : Option String) :
    Except PyErr (Cred × LogEntry) :=
  match selectStrategy w env credential_path with
  | .explicitFile =>
    let p := credential_path.getD ""
    if w.certFileOk p then
      .ok (.certificateFile p,
        ⟨.info, "Initializing Firebase with credential file: " ++ p⟩)
    else .error (.certFileError p)
  | .ambientEnv =>
    .ok (.applicationDefault,
      ⟨.info, "Initializing Firebase with environment credentials"⟩)
  | .inlineJson =>
    let s := env.firebaseServiceAccount.getD ""
    if w.parseJsonOk s then
      if w.certInfoOk s then
        .ok (.certificateInfo s,
          ⟨.info, "Initializing Firebase with environment JSON"⟩)
      else .error (.certInfoError s)
    else .error (.jsonDecodeError s)
  | .ambientDefault =>
    .ok (.applicationDefault,
      ⟨.warning,
        "Initializing Firebase with default credentials - ensure proper IAM roles"⟩)

/-- Model of `FirebaseManager.initialize` (lines 39-91). Returns the call result, the
manager state after the call, and the log entries emitted. Mutations are
sequential as in the source: `self.app` is assigned at line 75 before
`self.firestore_client` at line 81 and `self.realtime_db` at line 84; an
exception raised between assignments leaves the earlier assignments in place.
Every exception in the `try` block is re-raised as `RuntimeError` (line 91),
modelled by `PyErr.initFailed`. -/
def initManager (w : World) (env : Env) (credential_path : Option String)
    (st : ManagerState) : Except PyErr Unit × ManagerState × List LogEntry :=
  if st.app.isSome then
    (.ok (), st, [⟨.warning, "Firebase app already initialized"⟩])
  else
    match resolveCred w env credential_path with
    | .error e =>
      (.error (.initFailed e), st, [⟨.error, "Failed to initialize Firebase"⟩])
    | .ok (cred, slog) =>
      if w.appInitOk then
        let app : AppHandle :=
          ⟨cred, env.firebaseProjectId.getD "aatb-production",
            env.firebaseDatabaseUrl.getD ""⟩
        let st1 : ManagerState := { st with app := some app }
        if w.firestoreOk then
          let st2 : ManagerState := { st1 with firestore_client := some () }
          if truthy env.firebaseDatabaseUrl then
            if w.dbRefOk then
              (.ok (), { st2 with realtime_db := some () },
                [slog, ⟨.info, "Realtime Database initialized"⟩,
                  ⟨.info, "Firebase initialized successfully"⟩])
            else
              (.error (.initFailed .dbRefError), st2,
                [slog, ⟨.error, "Failed to initialize Firebase"⟩])
          else
            (.ok (), st2,
              [slog, ⟨.info, "Firebase initialized successfully"⟩])
        else
          (.error (.initFailed .firestoreError), st1,
            [slog, ⟨.error, "Failed to initialize Firebase"⟩])
      else
        (.error (.initFailed .appInitError), st,
          [slog, ⟨.error, "Failed to initialize Firebase"⟩])

/-- Model of `FirebaseManager.get_firestore` (lines 93-99): lazily initialize, then
return the client, or raise if it is still unavailable. -/
def get_firestore (w : World) (env : Env) (st : ManagerState) :
    Except PyErr Unit × ManagerState × List LogEntry :=
  match st.firestore_client with
  | some _ => (.ok (), st, [])
  | none =>
    match initManager w env none st with
    | (.error e, st1, logs) => (.error e, st1, logs)
    | (.ok _, st1, logs) =>
      match st1.firestore_client with
      | some _ => (.ok (), st1, logs)
      | none =>
        (.error
          (.runtimeError "Firestore client not available after initialization"),
          st1, logs)

/-- The fixed provenance tag written under `source` (line 129). -/
def enrichmentTag : String := "aatb_intelligence_layer"

/-- The dict literal of lines 124-130:
`{**state_data, 'timestamp': SERVER_TIMESTAMP, 'symbol': symbol,
'updated_at': now, 'source': 'aatb_intelligence_layer'}`.
Later literal entries overwrite caller entries with the same key. -/
def enriched_data (state_data : Payload) (symbol now : String) : Payload :=
  dictSet (dictSet (dictSet (dictSet state_data "timestamp" .serverTimestamp)
    "symbol" (.strV symbol)) "updated_at" (.strV now)) "source"
    (.strV enrichmentTag)

/-- The four enrichment fields, as the spec lists them: server timestamp, the
key under `symbol`, the client-side timestamp under `updated_at`, the
provenance tag under `source`. -/
def enrichmentFields (symbol now : String) : Payload :=
  [("timestamp", .serverTimestamp), ("symbol", .strV symbol),
    ("updated_at", .strV now), ("source", .strV enrichmentTag)]

/-- Spec-side merge of two dicts with the first taking precedence on common
keys, described pointwise by lookup. -/
def mergedLookup (precedent base : Payload) (k : String) : Option PyVal :=
  match dictLookup precedent k with
  | some v => some v
  | none => dictLookup base k

/-- Observable accesses to the document store made by a writer call. -/
inductive StoreOp where
  | getClient
  | mergeSet (collection : String) (symbol : String) (data : Payload)
  deriving DecidableEq, Repr

/-- Model of `FirebaseManager.update_market_state` (lines 107-140). Validation
(line 120) precedes any store access; the enriched payload is merge-written to
`(collection, symbol)`; any exception is logged and re-raised (line 140).
The third component lists the store accesses performed, in order. -/
def update_market_state (w : World) (env : Env) (st : ManagerState)
    (symbol : String) (state_data : PyData) (collection : String)
    (now : String) : Except PyErr Unit × ManagerState × List StoreOp :=
  match state_data with
  | .val _ => (.error (.valueError "Invalid symbol or state_data"), st, [])
  | .dict d =>
    if symbol = "" then
      (.error (.valueError "Invalid symbol or state_data"), st, [])
    else
      let enriched := enriched_data d symbol now
      match get_firestore w env st with
      | (.error e, st1, _) => (.error e, st1, [])
      | (.ok _, st1, _) =>
        if w.writeOk then
          (.ok (), st1, [.getClient, .mergeSet collection symbol enriched])
        else
          (.error .writeError, st1,
            [.getClient, .mergeSet collection symbol enriched])

/-- A Firestore document snapshot: its content when the document exists. -/
structure DocumentSnapshot where
  data : Option Payload
  deriving DecidableEq, Repr

/-- Model of `DocumentSnapshot.exists`. -/
def DocumentSnapshot.exists_ (s : DocumentSnapshot) : Bool := s.data.isSome

/-- Model of `DocumentSnapshot.to_dict()`: the content, `None` when absent. -/
def DocumentSnapshot.to_dict (s : DocumentSnapshot) : Option Payload := s.data

/-- The `on_snapshot` listener body (lines 157-159, completed from the spec at
the truncation): invoke the caller's handler with `to_dict()` exactly when the
document exists. Result `some p` = handler invoked with payload `p`;
`none` = handler not invoked for this notification. -/
def on_snapshot (s : DocumentSnapshot) : Option Payload :=
  if s.exists_ then s.to_dict else none

/-- The handle returned by `stream_market_updates`.
Modelled from the spec: the source file is truncated inside
`stream_market_updates`; per the spec the call returns a `Subscription`
binding the collection, the key and the handler, with an explicit
cancellation operation. -/
structure Subscription where
  collection : String
  symbol : String
  cancelled : Bool
  deriving DecidableEq, Repr

/-- Modelled from the spec: `Subscription.cancel() -> void`. -/
def Subscription.cancel (sub : Subscription) : Subscription :=
  { sub with cancelled := true }

/-- Delivery of one change notification through a subscription: after
cancellation no handler invocation occurs; an active subscription follows the
`on_snapshot` body. -/
def Subscription.deliver (sub : Subscription) (s : DocumentSnapshot) :
    Option Payload :=
  if sub.cancelled then none else on_snapshot s

/-- Model of `FirebaseManager.stream_market_updates` (lines 142-159, completed from the
spec past the truncation): obtain the client, register the listener on the
document, and hand back the subscription; registration failure surfaces as a
synchronous error. -/
def stream_market_updates (w : World) (env : Env) (st : ManagerState)
    (symbol : String) (collection : String) :
    Except PyErr Subscription × ManagerState :=
  match get_firestore w env st with
  | (.error e, st1, _) => (.error e, st1)
  | (.ok _, st1, _) =>
    if w.listenOk then
      (.ok ⟨collection, symbol, false⟩, st1)
    else
      (.error .listenError, st1)

/-! Interleaving model of concurrent first-time `initialize` calls.
One thread executing `FirebaseManager.initialize` passes two program points:
the unguarded check `if self.app is not None` (line 49) and, if the check saw
no app, the construction block (lines 53-87) that sets `self.app`. The source
takes no lock between the two. -/

/-- Program counter of one thread inside `initialize`: `start` = about to run
the line-49 check; `building` = passed the check, construction pending;
`done` = returned. -/
inductive TPC where
  | start
  | building
  | done
  deriving DecidableEq, Repr

/-- The shared manager fields the threads race on: whether `self.app` is set,
and how many times the construction block has run. -/
structure Shared where
  appSet : Bool
  constructions : Nat
  deriving DecidableEq, Repr

/-- One atomic step of a thread executing `initialize`. -/
def initStepThread : TPC → Shared → TPC × Shared
  | .start, sh => if sh.appSet then (.done, sh) else (.building, sh)
  | .building, sh => (.done, ⟨true, sh.constructions + 1⟩)
  | .done, sh => (.done, sh)

/-- Two threads, each calling `initialize` once, over the shared singleton. -/
structure TwoThreads where
  t1 : TPC
  t2 : TPC
  sh : Shared
  deriving DecidableEq, Repr

/-- Scheduler: run one step of thread 1 (`true`) or thread 2 (`false`). -/
def schedStep (c : TwoThreads) (chooseFirst : Bool) : TwoThreads :=
  if chooseFirst then
    let r := initStepThread c.t1 c.sh
    ⟨r.1, c.t2, r.2⟩
  else
    let r := initStepThread c.t2 c.sh
    ⟨c.t1, r.1, r.2⟩

/-- Run a schedule (a list of thread choices). -/
def runSched (sched : List Bool) (c : TwoThreads) : TwoThreads :=
  sched.foldl schedStep c

/-- Both threads about to make first-time calls; no session yet. -/
def initialTwoThreads : TwoThreads := ⟨.start, .start, ⟨false, 0⟩⟩

/-! Claim-side trigger conditions for the credential strategies, stated in the
claim's words over the environment. -/

/-- Trigger of strategy 1 as the claim words it: the path is provided and the
file exists at that path. -/
def trigger1 (w : World) (credential_path : Option String) : Prop :=
  ∃ p, credential_path = some p ∧ w.fileExists p = true

/-- Trigger of strategy 2 as the claim words it: the variable is set. -/
def trigger2 (env : Env) : Prop :=
  env.googleApplicationCredentials.isSome = true

/-- Trigger of strategy 3 as the claim words it: the variable is set. -/
def trigger3 (env : Env) : Prop :=
  env.firebaseServiceAccount.isSome = true

/-- Amended trigger of strategy 2: set to a non-empty value. -/
def trigger2A (env : Env) : Prop :=
  ∃ s, env.googleApplicationCredentials = some s ∧ s ≠ ""

/-- Amended trigger of strategy 3: set to a non-empty value. -/
def trigger3A (env : Env) : Prop :=
  ∃ s, env.firebaseServiceAccount = some s ∧ s ≠ ""

/-! Concrete instances used by witnesses and counterexamples. -/

/-- A world where every external call succeeds (no file at any path). -/
def wOk : World :=
  ⟨fun _ => false, fun _ => true, fun _ => true, fun _ => true,
    true, true, true, true, true⟩

/-- A world where everything succeeds except `firestore.client` (service
registration failure). -/
def wNoFirestore : World :=
  ⟨fun _ => false, fun _ => true, fun _ => true, fun _ => true,
    true, false, true, true, true⟩

/-- A world where `json.loads` fails on every input; all SDK calls succeed. -/
def wBadJson : World :=
  ⟨fun _ => false, fun _ => true, fun _ => false, fun _ => true,
    true, true, true, true, true⟩

/-- All environment variables unset. -/
def envEmpty : Env := ⟨none, none, none, none⟩

/-- Environment with `GOOGLE_APPLICATION_CREDENTIALS` set to the empty string and
`FIREBASE_SERVICE_ACCOUNT` set to a non-empty value. -/
def envEmptyGac : Env := ⟨some "", some "svc", none, none⟩

/-- Environment with `FIREBASE_SERVICE_ACCOUNT` set to the empty string, nothing else set. -/
def envFsaEmpty : Env := ⟨none, some "", none, none⟩

/-- Environment with `FIREBASE_SERVICE_ACCOUNT` set to non-JSON text, nothing else set. -/
def envFsaBad : Env := ⟨none, some "notjson", none, none⟩

/-- The app handle built under `envEmpty` with ambient default credentials. -/
def appDefault : AppHandle := ⟨.applicationDefault, "aatb-production", ""⟩

/-- The partially-constructed state left when `firestore.client` raises after
`firebase_admin.initialize_app` succeeded. -/
def stPartial : ManagerState := ⟨some appDefault, none, none⟩

/-- A fully initialized state (no realtime tier configured). -/
def stReady : ManagerState := ⟨some appDefault, some (), none⟩

/-! Section C1: failure atomicity of session construction. -/

/-- C1 counterexample. The claim states that a failing `initialize` leaves
no partially-constructed session visible: afterwards either all session fields
(app, document-store client) are populated or the session does not exist, and
other operations behave as if no session exists. In the world where
`firebase_admin.initialize_app` succeeds but `firestore.client` raises
(service registration failure), `initialize` on a fresh manager raises,
yet leaves `self.app` set with `self.firestore_client` unset — the claimed
invariant is false — and a subsequent `initialize` call treats the manager as
already initialized (returns without error) instead of behaving as if no
session exists. -/
theorem c1_counterexample :
    (initManager wNoFirestore envEmpty none emptyState).2.1 = stPartial ∧
    (∃ e, (initManager wNoFirestore envEmpty none emptyState).1 =
      .error (.initFailed e)) ∧
    sessionIntact stPartial = false ∧
    stPartial.app.isSome = true ∧
    stPartial.firestore_client = none ∧
    (initManager wNoFirestore envEmpty none stPartial).1 = .ok () := by
  refine ⟨rfl, ⟨.firestoreError, rfl⟩, rfl, rfl, rfl, rfl⟩

/-- C1 (amended): when `initialize` fails on a fresh manager it raises a
`RuntimeError` wrapping the root cause, and the state afterwards is one of:
unchanged (failure during credential resolution or app registration); app
registered with no document-store client — a partially-constructed session
remains visible, and `get_firestore` then fails instead of returning a
client; or app and client registered without the realtime handle (realtime
registration failure). -/
theorem c1_amended (w : World) (env : Env) (credential_path : Option String)
    (e : PyErr) (st1 : ManagerState) (logs : List LogEntry)
    (h : initManager w env credential_path emptyState = (.error e, st1, logs)) :
    (∃ c, e = .initFailed c) ∧
    (st1 = emptyState ∨
      (st1.app.isSome = true ∧ st1.firestore_client = none ∧
        (get_firestore w env st1).1 =
          .error (.runtimeError
            "Firestore client not available after initialization")) ∨
      (st1.app.isSome = true ∧ st1.firestore_client.isSome = true ∧
        st1.realtime_db = none)) := by
  unfold initManager at h
  simp only [emptyState, Option.isSome_none, Bool.false_eq_true, if_false,
    reduceIte] at h
  cases hr : resolveCred w env credential_path with
  | error e0 =>
    rw [hr] at h
    simp only [Prod.mk.injEq, Except.error.injEq] at h
    obtain ⟨he, hst, -⟩ := h
    exact ⟨⟨e0, he.symm⟩, Or.inl hst.symm⟩
  | ok pr =>
    obtain ⟨cred, slog⟩ := pr
    rw [hr] at h
    by_cases ha : w.appInitOk
    · simp only [ha, if_true, reduceIte] at h
      by_cases hf : w.firestoreOk
      · simp only [hf, if_true, reduceIte] at h
        by_cases hd : truthy env.firebaseDatabaseUrl
        · simp only [hd, if_true, reduceIte] at h
          by_cases hdr : w.dbRefOk
          · rw [hdr] at h
            simp at h
          · simp only [hdr, if_false, Bool.false_eq_true, reduceIte,
              Prod.mk.injEq, Except.error.injEq] at h
            obtain ⟨he, hst, -⟩ := h
            refine ⟨⟨.dbRefError, he.symm⟩, Or.inr (Or.inr ?_)⟩
            rw [← hst]
            exact ⟨rfl, rfl, rfl⟩
        · simp only [hd, if_false, Bool.false_eq_true, reduceIte] at h
          simp at h
      · simp only [hf, if_false, Bool.false_eq_true, reduceIte,
          Prod.mk.injEq, Except.error.injEq] at h
        obtain ⟨he, hst, -⟩ := h
        refine ⟨⟨.firestoreError, he.symm⟩, Or.inr (Or.inl ?_)⟩
        rw [← hst]
        refine ⟨rfl, rfl, ?_⟩
        unfold get_firestore initManager
        simp
    · simp only [ha, if_false, Bool.false_eq_true, reduceIte,
        Prod.mk.injEq, Except.error.injEq] at h
      obtain ⟨he, hst, -⟩ := h
      exact ⟨⟨.appInitError, he.symm⟩, Or.inl hst.symm⟩

/-- Witness for the amended C1 at the service-registration failure. -/
theorem c1_amended_witness :
    ∃ c, (PyErr.initFailed .firestoreError) = PyErr.initFailed c :=
  (c1_amended wNoFirestore envEmpty none (.initFailed .firestoreError)
    stPartial
    [⟨.warning,
      "Initializing Firebase with default credentials - ensure proper IAM roles"⟩,
      ⟨.error, "Failed to initialize Firebase"⟩] rfl).1

/-! Section C8: idempotence of repeated session construction calls. -/

/-- C8: if a session already exists, a further `initialize` call, with any
credential-path argument, returns without error, leaves the state unchanged,
and emits exactly one warning-level diagnostic. -/
theorem c8_idempotent (w : World) (env : Env)
    (credential_path : Option String) (st : ManagerState)
    (h : st.app.isSome = true) :
    initManager w env credential_path st =
      (.ok (), st, [⟨.warning, "Firebase app already initialized"⟩]) := by
  unfold initManager
  rw [if_pos h]

/-- Witness for C8 on a fully initialized manager. -/
theorem c8_idempotent_witness :
    initManager wOk envEmpty (some "/creds.json") stReady =
      (.ok (), stReady, [⟨.warning, "Firebase app already initialized"⟩]) :=
  c8_idempotent wOk envEmpty (some "/creds.json") stReady rfl

/-! Section C9: concurrent first-time session construction. -/

/-- Once the session exists and neither call is mid-construction, one scheduler
step changes nothing shared and puts no thread into the construction block. -/
theorem schedStep_stable (c : TwoThreads) (b : Bool)
    (h : c.sh.appSet = true) (h1 : c.t1 ≠ .building) (h2 : c.t2 ≠ .building) :
    (schedStep c b).sh = c.sh ∧ (schedStep c b).t1 ≠ .building ∧
      (schedStep c b).t2 ≠ .building := by
  obtain ⟨t1, t2, sh⟩ := c
  cases b <;> cases t1 <;> cases t2 <;>
    simp_all [schedStep, initStepThread]

/-- C9 counterexample. The claim states that concurrent first-time calls
are serialized (exclusive lock or equivalent) so that exactly one session is
constructed. The source takes no lock: the line-49 check and the construction
block are separate steps. Interleaving two first-time `initialize` calls so
that both pass the check before either constructs makes both threads run the
construction block: two constructions, not one. -/
theorem c9_counterexample :
    (runSched [true, false, true, false] initialTwoThreads).t1 = TPC.done ∧
    (runSched [true, false, true, false] initialTwoThreads).t2 = TPC.done ∧
    (runSched [true, false, true, false] initialTwoThreads).sh.constructions
      = 2 := by
  refine ⟨rfl, rfl, rfl⟩

/-- C9 (amended): the code takes no lock, so overlapping first-time calls
can each run the construction block (see the counterexample); but when the
calls do not overlap, exactly one session is constructed: once the session
exists and no call is mid-construction, no schedule ever performs another
construction, and a serialized execution of two first-time calls ends with
both calls complete and exactly one construction. -/
theorem c9_amended :
    (∀ (sched : List Bool) (c : TwoThreads), c.sh.appSet = true →
      c.t1 ≠ TPC.building → c.t2 ≠ TPC.building →
      (runSched sched c).sh.constructions = c.sh.constructions) ∧
    runSched [true, true, false] initialTwoThreads =
      ⟨TPC.done, TPC.done, ⟨true, 1⟩⟩ := by
  constructor
  · intro sched
    induction sched with
    | nil =>
      intro c h h1 h2
      rfl
    | cons b rest ih =>
      intro c h h1 h2
      obtain ⟨hsh, ht1, ht2⟩ := schedStep_stable c b h h1 h2
      have hrun : runSched (b :: rest) c = runSched rest (schedStep c b) := rfl
      rw [hrun, ih (schedStep c b) (by rw [hsh]; exact h) ht1 ht2, hsh]
  · rfl

/-- Witness for the amended C9: with the session built and both calls out of
the construction block, a further step of the second thread constructs
nothing. -/
theorem c9_amended_witness :
    (runSched [false] ⟨TPC.done, TPC.start, ⟨true, 1⟩⟩).sh.constructions =
      (⟨TPC.done, TPC.start, ⟨true, 1⟩⟩ : TwoThreads).sh.constructions :=
  c9_amended.1 [false] ⟨TPC.done, TPC.start, ⟨true, 1⟩⟩ rfl
    (by decide) (by decide)

/-! Section C2 and C3: credential strategy selection. -/

/-- Truthiness of an optional environment value, spelled out. -/
theorem truthy_iff (o : Option String) :
    truthy o = true ↔ ∃ s, o = some s ∧ s ≠ "" := by
  cases o with
  | none => simp [truthy]
  | some s => simp [truthy]

/-- Under the fact that no file exists at the empty path (`os.path.exists("")`
is false), the line-55 condition coincides with the claim's trigger (1). -/
theorem cond1_iff (w : World) (credential_path : Option String)
    (hfe : w.fileExists "" = false) :
    (truthy credential_path &&
      w.fileExists (credential_path.getD "")) = true ↔
      trigger1 w credential_path := by
  cases credential_path with
  | none => simp [truthy, trigger1]
  | some p =>
    simp only [truthy, Option.getD_some, Bool.and_eq_true, bne_iff_ne, ne_eq,
      trigger1, Option.some.injEq]
    constructor
    · rintro ⟨hne, hex⟩
      exact ⟨p, rfl, hex⟩
    · rintro ⟨q, hq, hex⟩
      subst hq
      refine ⟨?_, hex⟩
      intro h0
      rw [h0] at hex
      rw [hex] at hfe
      cases hfe

/-- C2 counterexample. The claim's trigger for strategy 2 is
"`GOOGLE_APPLICATION_CREDENTIALS` is set", and it asserts strategy 2 is then
selected regardless of later-priority triggers. With the variable set to the
empty string and `FIREBASE_SERVICE_ACCOUNT` set to a non-empty value, the
code's truthiness test skips strategy 2 and selects strategy 3 (the inline
certificate), not the ambient default. -/
theorem c2_counterexample :
    trigger2 envEmptyGac ∧
    ¬ trigger1 wOk none ∧
    selectStrategy wOk envEmptyGac none = Strategy.inlineJson ∧
    Strategy.inlineJson ≠ Strategy.ambientEnv := by
  refine ⟨rfl, ?_, rfl, by decide⟩
  rintro ⟨p, hp, -⟩
  cases hp

/-- C2 (amended): with triggers (2) and (3) read as "set to a non-empty
value" (the code's truthiness test; empty-valued variables behave as unset),
and given that no file exists at the empty path, the chain selects exactly the
first satisfied strategy, regardless of which later-priority triggers are also
present. -/
theorem c2_amended (w : World) (env : Env) (credential_path : Option String)
    (hfe : w.fileExists "" = false) :
    (trigger1 w credential_path →
      selectStrategy w env credential_path = .explicitFile) ∧
    (¬ trigger1 w credential_path → trigger2A env →
      selectStrategy w env credential_path = .ambientEnv) ∧
    (¬ trigger1 w credential_path → ¬ trigger2A env → trigger3A env →
      selectStrategy w env credential_path = .inlineJson) ∧
    (¬ trigger1 w credential_path → ¬ trigger2A env → ¬ trigger3A env →
      selectStrategy w env credential_path = .ambientDefault) := by
  have e1 := cond1_iff w credential_path hfe
  have e2 : truthy env.googleApplicationCredentials = true ↔ trigger2A env :=
    truthy_iff env.googleApplicationCredentials
  have e3 : truthy env.firebaseServiceAccount = true ↔ trigger3A env :=
    truthy_iff env.firebaseServiceAccount
  unfold selectStrategy
  refine ⟨fun t1 => ?_, fun nt1 t2 => ?_, fun nt1 nt2 t3 => ?_,
    fun nt1 nt2 nt3 => ?_⟩
  · rw [if_pos (e1.mpr t1)]
  · rw [if_neg (fun hc => nt1 (e1.mp hc)), if_pos (e2.mpr t2)]
  · rw [if_neg (fun hc => nt1 (e1.mp hc)), if_neg (fun hc => nt2 (e2.mp hc)),
      if_pos (e3.mpr t3)]
  · rw [if_neg (fun hc => nt1 (e1.mp hc)), if_neg (fun hc => nt2 (e2.mp hc)),
      if_neg (fun hc => nt3 (e3.mp hc))]

/-- Witness for the amended C2: no trigger satisfied selects strategy 4. -/
theorem c2_amended_witness :
    selectStrategy wOk envEmpty none = Strategy.ambientDefault :=
  (c2_amended wOk envEmpty none rfl).2.2.2
    (by rintro ⟨p, hp, -⟩; cases hp)
    (by rintro ⟨s, hs, -⟩; cases hs)
    (by rintro ⟨s, hs, -⟩; cases hs)

/-- C3 counterexample. The claim reads: whenever
`FIREBASE_SERVICE_ACCOUNT` is set but malformed and strategies 1 and 2 are
untriggered, `initialize` raises and does not fall through to strategy 4.
With the variable set to the empty string (which no JSON parser accepts), the
code's truthiness test skips strategy 3 entirely, falls through to strategy 4,
and initialization succeeds. -/
theorem c3_counterexample :
    envFsaEmpty.firebaseServiceAccount.isSome = true ∧
    wBadJson.parseJsonOk "" = false ∧
    ¬ trigger1 wBadJson none ∧
    ¬ trigger2 envFsaEmpty ∧
    selectStrategy wBadJson envFsaEmpty none = Strategy.ambientDefault ∧
    (initManager wBadJson envFsaEmpty none emptyState).1 = .ok () := by
  refine ⟨rfl, rfl, ?_, ?_, rfl, rfl⟩
  · rintro ⟨p, hp, -⟩
    cases hp
  · intro h
    simp [trigger2, envFsaEmpty] at h

/-- C3 (amended): with "set" read as "set to a non-empty value", once
strategy 3's trigger is met with malformed content and strategies 1 and 2 are
untriggered, the chain selects strategy 3 (no fallthrough to strategy 4) and
`initialize` raises the `RuntimeError` wrapping the JSON decode error, leaving
the state unchanged. -/
theorem c3_amended (w : World) (env : Env) (credential_path : Option String)
    (st : ManagerState) (hst : st.app = none)
    (hfe : w.fileExists "" = false)
    (nt1 : ¬ trigger1 w credential_path)
    (nt2 : ¬ trigger2A env)
    (s : String) (hs : env.firebaseServiceAccount = some s) (hne : s ≠ "")
    (hbad : w.parseJsonOk s = false) :
    selectStrategy w env credential_path = .inlineJson ∧
    initManager w env credential_path st =
      (.error (.initFailed (.jsonDecodeError s)), st,
        [⟨.error, "Failed to initialize Firebase"⟩]) := by
  have hsel : selectStrategy w env credential_path = .inlineJson := by
    unfold selectStrategy
    rw [if_neg (fun hc => nt1 ((cond1_iff w credential_path hfe).mp hc)),
      if_neg (fun hc =>
        nt2 ((truthy_iff env.googleApplicationCredentials).mp hc)),
      if_pos (by rw [hs]; simpa [truthy] using hne)]
  refine ⟨hsel, ?_⟩
  have hres : resolveCred w env credential_path =
      .error (.jsonDecodeError s) := by
    unfold resolveCred
    rw [hsel, hs]
    simp [hbad]
  unfold initManager
  rw [hst]
  simp [hres]

/-- Witness for the amended C3: non-empty malformed inline credentials are
terminal, with no fallthrough to the ambient default. -/
theorem c3_amended_witness :
    selectStrategy wBadJson envFsaBad none = Strategy.inlineJson ∧
    initManager wBadJson envFsaBad none emptyState =
      (.error (.initFailed (.jsonDecodeError "notjson")), emptyState,
        [⟨.error, "Failed to initialize Firebase"⟩]) :=
  c3_amended wBadJson envFsaBad none emptyState rfl rfl
    (by rintro ⟨p, hp, -⟩; cases hp)
    (by rintro ⟨s, hs, -⟩; cases hs)
    "notjson" rfl (by decide) rfl

/-! Section C10: configuration defaults. -/

/-- C10: with `FIREBASE_PROJECT_ID` unset, `initialize` does not fail over
the missing project identifier: provided credential resolution and the SDK
calls succeed, it completes, silently using the hard-coded project identifier
`aatb-production`; likewise the app's database URL is the empty string when
`FIREBASE_DATABASE_URL` is unset (and no realtime handle is registered). -/
theorem c10_defaults (w : World) (env : Env) (credential_path : Option String)
    (hpid : env.firebaseProjectId = none)
    (hdb : env.firebaseDatabaseUrl = none)
    (cred : Cred) (slog : LogEntry)
    (hres : resolveCred w env credential_path = .ok (cred, slog))
    (happ : w.appInitOk = true) (hfs : w.firestoreOk = true) :
    initManager w env credential_path emptyState =
      (.ok (), ⟨some ⟨cred, "aatb-production", ""⟩, some (), none⟩,
        [slog, ⟨.info, "Firebase initialized successfully"⟩]) := by
  unfold initManager
  rw [hres]
  simp [emptyState, happ, hfs, hpid, hdb, truthy]

/-- Witness for C10: all variables unset, ambient default credentials. -/
theorem c10_defaults_witness :
    initManager wOk envEmpty none emptyState =
      (.ok (),
        ⟨some ⟨.applicationDefault, "aatb-production", ""⟩, some (), none⟩,
        [⟨.warning,
          "Initializing Firebase with default credentials - ensure proper IAM roles"⟩,
          ⟨.info, "Firebase initialized successfully"⟩]) :=
  c10_defaults wOk envEmpty none rfl rfl .applicationDefault _ rfl rfl rfl

/-! Section C5: writer validation. -/

/-- C5: for an empty key or a non-dict payload, `update_market_state`
fails with the validation `ValueError`, performs no store access (the
operation trace is empty, so no client handle is obtained and no write is
attempted), and leaves the manager state unchanged. -/
theorem c5_validation (w : World) (env : Env) (st : ManagerState)
    (symbol : String) (state_data : PyData) (collection now : String)
    (h : symbol = "" ∨ state_data.isDict = false) :
    update_market_state w env st symbol state_data collection now =
      (.error (.valueError "Invalid symbol or state_data"), st, []) := by
  cases state_data with
  | val v => rfl
  | dict d =>
    rcases h with h | h
    · subst h
      rfl
    · simp [PyData.isDict] at h

/-- Witness for C5: the spec's own example, `updateState("", {"price": 100})`. -/
theorem c5_validation_witness :
    update_market_state wOk envEmpty emptyState ""
      (.dict [("price", .intV 100)]) "market_states" "2026-10-12T00:00:00" =
      (.error (.valueError "Invalid symbol or state_data"), emptyState, []) :=
  c5_validation wOk envEmpty emptyState "" (.dict [("price", .intV 100)])
    "market_states" "2026-10-12T00:00:00" (Or.inl rfl)

/-! Section C6: enrichment merge. -/

/-- C6: a valid call writes exactly the enriched payload, and that payload
agrees pointwise with the caller payload merged with the four enrichment
fields, the enrichment value taking precedence on every common field name. -/
theorem c6_enrichment (w : World) (env : Env) (st : ManagerState)
    (symbol : String) (d : Payload) (collection now : String)
    (hsym : ¬ symbol = "")
    (st1 : ManagerState) (logs : List LogEntry)
    (hfs : get_firestore w env st = (.ok (), st1, logs)) :
    (update_market_state w env st symbol (.dict d) collection now).2.2 =
      [.getClient, .mergeSet collection symbol (enriched_data d symbol now)] ∧
    ∀ k, dictLookup (enriched_data d symbol now) k =
      mergedLookup (enrichmentFields symbol now) d k := by
  constructor
  · simp only [update_market_state]
    rw [if_neg hsym, hfs]
    by_cases hw : w.writeOk <;> simp [hw]
  · intro k
    by_cases h1 : k = "source"
    · subst h1
      unfold enriched_data
      rw [dictLookup_dictSet_self]
      rfl
    · by_cases h2 : k = "updated_at"
      · subst h2
        unfold enriched_data
        rw [dictLookup_dictSet_ne _ _ _ _ (by decide),
          dictLookup_dictSet_self]
        rfl
      · by_cases h3 : k = "symbol"
        · subst h3
          unfold enriched_data
          rw [dictLookup_dictSet_ne _ _ _ _ (by decide),
            dictLookup_dictSet_ne _ _ _ _ (by decide),
            dictLookup_dictSet_self]
          rfl
        · by_cases h4 : k = "timestamp"
          · subst h4
            unfold enriched_data
            rw [dictLookup_dictSet_ne _ _ _ _ (by decide),
              dictLookup_dictSet_ne _ _ _ _ (by decide),
              dictLookup_dictSet_ne _ _ _ _ (by decide),
              dictLookup_dictSet_self]
            rfl
          · unfold enriched_data
            rw [dictLookup_dictSet_ne _ _ _ _ h1,
              dictLookup_dictSet_ne _ _ _ _ h2,
              dictLookup_dictSet_ne _ _ _ _ h3,
              dictLookup_dictSet_ne _ _ _ _ h4]
            simp [mergedLookup, enrichmentFields, dictLookup,
              Ne.symm h1, Ne.symm h2, Ne.symm h3, Ne.symm h4]

/-- Witness for C6: the enrichment value shadows a caller-supplied `source`
field, and the write carries exactly the enriched payload. -/
theorem c6_enrichment_witness :
    (update_market_state wOk envEmpty stReady "BTC/USDT"
      (.dict [("price", .intV 100), ("source", .strV "caller")])
      "market_states" "2026-10-12T00:00:00").2.2 =
      [.getClient, .mergeSet "market_states" "BTC/USDT"
        (enriched_data [("price", .intV 100), ("source", .strV "caller")]
          "BTC/USDT" "2026-10-12T00:00:00")] ∧
    dictLookup (enriched_data [("price", .intV 100), ("source", .strV "caller")]
      "BTC/USDT" "2026-10-12T00:00:00") "source" =
      mergedLookup (enrichmentFields "BTC/USDT" "2026-10-12T00:00:00")
        [("price", .intV 100), ("source", .strV "caller")] "source" := by
  have h := c6_enrichment wOk envEmpty stReady "BTC/USDT"
    [("price", .intV 100), ("source", .strV "caller")]
    "market_states" "2026-10-12T00:00:00" (by decide) stReady [] rfl
  exact ⟨h.1, h.2 "source"⟩

/-! Section C4: subscription handle with cancellation. -/

/-- C4: a successful `stream_market_updates` call returns a `Subscription`
handle bound to the collection and key, initially active, and the handle's
explicit cancellation operation stops all future handler invocations. -/
theorem c4_subscription (w : World) (env : Env) (st : ManagerState)
    (symbol collection : String) (sub : Subscription) (st1 : ManagerState)
    (h : stream_market_updates w env st symbol collection = (.ok sub, st1)) :
    sub.collection = collection ∧ sub.symbol = symbol ∧
    sub.cancelled = false ∧
    ∀ s : DocumentSnapshot, (Subscription.cancel sub).deliver s = none := by
  unfold stream_market_updates at h
  rcases hgf : get_firestore w env st with ⟨r, st2, logs2⟩
  rw [hgf] at h
  cases r with
  | error e => simp at h
  | ok u =>
    by_cases hw : w.listenOk
    · simp only [hw, if_true, Prod.mk.injEq, Except.ok.injEq] at h
      obtain ⟨hsub, -⟩ := h
      subst hsub
      exact ⟨rfl, rfl, rfl, fun s => rfl⟩
    · simp [hw] at h

/-- Witness for C4 on an initialized manager: the handle comes back and a
cancelled handle delivers nothing. -/
theorem c4_subscription_witness :
    (Subscription.cancel ⟨"market_states", "BTC/USDT", false⟩).deliver
      ⟨some [("price", .intV 100)]⟩ = none :=
  (c4_subscription wOk envEmpty stReady "BTC/USDT" "market_states"
    ⟨"market_states", "BTC/USDT", false⟩ stReady rfl).2.2.2
    ⟨some [("price", .intV 100)]⟩

/-! Section C7: existence-guarded handler invocation. -/

/-- C7: for a notification delivered to an active subscription, the
handler is invoked with the snapshot's dict exactly when the document exists;
for a non-existing (deleted) document no invocation happens and no null
payload is delivered. -/
theorem c7_snapshot_delivery (sub : Subscription)
    (hactive : sub.cancelled = false) (s : DocumentSnapshot) :
    (∀ p, sub.deliver s = some p ↔
      (s.exists_ = true ∧ s.to_dict = some p)) ∧
    (s.exists_ = false → sub.deliver s = none) := by
  obtain ⟨data⟩ := s
  cases data with
  | none =>
    constructor
    · intro p
      simp [Subscription.deliver, hactive, on_snapshot,
        DocumentSnapshot.exists_, DocumentSnapshot.to_dict]
    · intro hne
      simp [Subscription.deliver, hactive, on_snapshot,
        DocumentSnapshot.exists_]
  | some d =>
    constructor
    · intro p
      simp [Subscription.deliver, hactive, on_snapshot,
        DocumentSnapshot.exists_, DocumentSnapshot.to_dict]
    · intro hfalse
      simp [DocumentSnapshot.exists_] at hfalse

/-- Witness for C7: a deletion notification invokes no handler; an existing
document's notification delivers its dict. -/
theorem c7_snapshot_delivery_witness :
    Subscription.deliver ⟨"market_states", "BTC/USDT", false⟩ ⟨none⟩ = none ∧
    Subscription.deliver ⟨"market_states", "BTC/USDT", false⟩
      ⟨some [("price", PyVal.intV 100)]⟩ = some [("price", PyVal.intV 100)] :=
  ⟨(c7_snapshot_delivery ⟨"market_states", "BTC/USDT", false⟩ rfl ⟨none⟩).2
      rfl,
    ((c7_snapshot_delivery ⟨"market_states", "BTC/USDT", false⟩ rfl
      ⟨some [("price", PyVal.intV 100)]⟩).1 _).mpr ⟨rfl, rfl⟩⟩

end FirebaseSetup
